import Mathlib

/-!
Shallow embedding of the resilient real-time price-feed client
(btop-crypto-pulse): the WebSocket streaming service, the Binance REST
service with its sticky fallback mode, the synthetic candle generators,
and the bootstrap hook.  Each definition is translated directly from the
corresponding TypeScript source; theorems settle the specification
claims against these definitions.

Modelling conventions:
* JS numbers are modelled as rationals (ℚ); `parseFloat` on ticker
  strings is passed in as an abstract function `pf : String → ℚ`
  because no claim depends on its semantics.
* `Math.random()` is modelled as a stream `rands : ℕ → ℚ` of values in
  `[0, 1)`, consumed left to right in source order (the hypotheses of
  the theorems record the `[0, 1)` range).
* `x.toFixed(d)` followed by `parseFloat` is decimal rounding
  (round-half-up for the positive values that occur here), modelled by
  `round4` / `round0`.
* JS truthiness on the (string-valued) ticker fields is
  "present and non-empty".
-/

/-- JS `String.prototype.toLowerCase` (ASCII-relevant part), as a
character-wise map. -/
def jsToLower (s : String) : String := ⟨s.data.map Char.toLower⟩

/-- JS `String.prototype.toUpperCase` (ASCII-relevant part), as a
character-wise map. -/
def jsToUpper (s : String) : String := ⟨s.data.map Char.toUpper⟩

/-! ## WebSocketService (src/services/websocketService.ts) -/

namespace WebSocketService

/-- The fields of an inbound 24hr-ticker payload that the service reads:
`s` (pair symbol), `c` (last price), `P` (24h percent change), `e`
(event type).  Absent JSON fields are `none`. -/
structure TickerData where
  s : Option String
  c : Option String
  P : Option String
  e : Option String
  deriving DecidableEq, Repr

/-- `interface PriceUpdate { symbol; price; change24h }`. -/
structure PriceUpdate where
  symbol : String
  price : ℚ
  change24h : ℚ
  deriving DecidableEq, Repr

/-- JS truthiness of an optional string field: present and non-empty. -/
def truthy : Option String → Bool
  | none => false
  | some s => !s.isEmpty

/-- Does `pat` occur at the head of `l`? -/
def leadsWith : List Char → List Char → Bool
  | [], _ => true
  | _ :: _, [] => false
  | p :: ps, c :: cs => p = c && leadsWith ps cs

/-- JS `String.prototype.replace` with a string pattern: replace the
first occurrence of `pat` (non-empty here) by `rep`. -/
def listReplaceFirst (pat rep : List Char) : List Char → List Char
  | [] => []
  | c :: rest =>
    if leadsWith pat (c :: rest) then rep ++ (c :: rest).drop pat.length
    else c :: listReplaceFirst pat rep rest

/-- String version of `listReplaceFirst`. -/
def jsReplaceFirst (s pat rep : String) : String :=
  ⟨listReplaceFirst pat.data rep.data s.data⟩

/-- The pure core of `handleTickerUpdate`: the update built from a
ticker payload, or `none` when a required field (`s`, `c`, `P`) is
missing/falsy (`if (!tickerData.s || !tickerData.c || !tickerData.P)
return;`).  The symbol is the pair with `'USDT'` replaced by the empty
string, lowercased. -/
def handleTickerUpdate (pf : String → ℚ) (t : TickerData) : Option PriceUpdate :=
  if truthy t.s && truthy t.c && truthy t.P then
    some { symbol := jsToLower (jsReplaceFirst (t.s.getD "") "USDT" "")
           price := pf (t.c.getD "")
           change24h := pf (t.P.getD "") }
  else
    none

/-- A registered subscriber: an identity plus whether invoking it on a
given update throws. -/
structure Callback where
  id : ℕ
  throwsOn : PriceUpdate → Bool

/-- The fan-out loop of `handleTickerUpdate`:
`this.callbacks.forEach(cb => { try { cb(update) } catch (e) { console.error } })`.
Returns the ids invoked (in iteration order) and the ids whose thrown
exception was caught and logged; the catch means iteration continues
past a throwing callback. -/
def notifyAll (cbs : List Callback) (u : PriceUpdate) : List ℕ × List ℕ :=
  match cbs with
  | [] => ([], [])
  | cb :: rest =>
    let r := notifyAll rest u
    if cb.throwsOn u then (cb.id :: r.1, cb.id :: r.2) else (cb.id :: r.1, r.2)

/-- One element of an inbound combined-stream array: an object whose
`data` field (if present) may carry a ticker payload (its `e` field is
inside `TickerData`). -/
structure WsItem where
  dat : Option TickerData
  deriving DecidableEq, Repr

/-- The successfully-parsed shapes `onmessage` distinguishes: an object
(with optional `stream` and `data` fields plus its own ticker fields),
or an array. -/
inductive WsData where
  | objData (stream : Option String) (dat : Option TickerData) (tk : TickerData)
  | arr (items : List WsItem)
  deriving DecidableEq, Repr

/-- The `onmessage` handler: `none` models a frame on which
`JSON.parse` throws (the exception is caught and logged, nothing is
published).  Returns the list of updates published for the frame:
* `data.stream && data.data` → handle `data.data`;
* else `data.e === '24hrTicker'` → handle `data` itself;
* else if array → handle each item whose `data.e === '24hrTicker'`. -/
def onMessage (pf : String → ℚ) (frame : Option WsData) : List PriceUpdate :=
  match frame with
  | none => []
  | some (.objData stream dat tk) =>
    if truthy stream && dat.isSome then
      (handleTickerUpdate pf (dat.getD ⟨none, none, none, none⟩)).toList
    else if tk.e = some "24hrTicker" then
      (handleTickerUpdate pf tk).toList
    else []
  | some (.arr items) =>
    items.flatMap fun it =>
      match it.dat with
      | some d => if d.e = some "24hrTicker" then (handleTickerUpdate pf d).toList else []
      | none => []

/-- Browser `WebSocket.readyState` values. -/
inductive ReadyState where
  | connecting
  | opened
  | closing
  | closed
  deriving DecidableEq, Repr

/-- `private maxReconnectAttempts = 5`. -/
def maxReconnectAttempts : ℕ := 5

/-- The mutable fields of the service that the reconnect/close logic
touches.  `ws` is `none` when the field is `null`, otherwise it carries
the socket's `readyState`.  `reconnectTimer` is `some delay` while a
reconnect timer is pending (`clearTimeout`/firing make it `none`). -/
structure WSState where
  ws : Option ReadyState
  reconnectTimer : Option ℕ
  isConnecting : Bool
  reconnectAttempts : ℕ
  symbols : List String
  deriving DecidableEq, Repr

/-- The freshly constructed service. -/
def initialState : WSState :=
  { ws := none, reconnectTimer := none, isConnecting := false
    reconnectAttempts := 0, symbols := [] }

/-- `connect(symbols)`: no-op if already connecting or the socket is
open; otherwise store the symbols and open a new socket (readyState
CONNECTING), setting `isConnecting`. -/
def connect (symbols : List String) (s : WSState) : WSState :=
  if s.isConnecting || s.ws = some .opened then s
  else
    { s with symbols := symbols, isConnecting := true, ws := some .connecting }

/-- `scheduleReconnect()`: if the attempt counter has reached the
maximum, do nothing; otherwise compute
`delay = Math.min(1000 * Math.pow(2, attempts), 30000)`, increment the
counter and set the timer.  Returns the scheduled delay (`none` when no
timer was scheduled). -/
def scheduleReconnect (s : WSState) : WSState × Option ℕ :=
  if maxReconnectAttempts ≤ s.reconnectAttempts then (s, none)
  else
    let delay := min (1000 * 2 ^ s.reconnectAttempts) 30000
    ({ s with reconnectAttempts := s.reconnectAttempts + 1
              reconnectTimer := some delay },
     some delay)

/-- The `onopen` handler: clear `isConnecting`, reset the attempt
counter; the socket is now OPEN. -/
def onOpen (s : WSState) : WSState :=
  { s with ws := some .opened, isConnecting := false, reconnectAttempts := 0 }

/-- The `onclose` handler with close `code`: null the socket, clear
`isConnecting`, and schedule a reconnect unless the closure was normal
(code 1000).  Returns the scheduled delay, if any. -/
def onClose (code : ℕ) (s : WSState) : WSState × Option ℕ :=
  let s1 := { s with ws := none, isConnecting := false }
  if code ≠ 1000 then scheduleReconnect s1 else (s1, none)

/-- The runtime firing a pending reconnect timer: the timer's callback
runs `connect(this.symbols)`.  When no timer is pending (it was
cancelled by `clearTimeout` or never scheduled) nothing happens. -/
def fireReconnectTimer (s : WSState) : WSState :=
  match s.reconnectTimer with
  | none => s
  | some _ => connect s.symbols { s with reconnectTimer := none }

/-- `disconnect()`: cancel any pending reconnect timer, close the
socket with the normal-closure code 1000 if present, clear
`isConnecting`, reset the attempt counter.  Returns the close code sent
to the socket, if a socket was open to close. -/
def disconnect (s : WSState) : WSState × Option ℕ :=
  let closeCode : Option ℕ := if s.ws.isSome then some 1000 else none
  ({ s with reconnectTimer := none, ws := none, isConnecting := false
            reconnectAttempts := 0 },
   closeCode)

/-- `getConnectionState()`: `'CLOSED'` when the socket field is null,
otherwise the name of its readyState. -/
def getConnectionState (s : WSState) : String :=
  match s.ws with
  | none => "CLOSED"
  | some .connecting => "CONNECTING"
  | some .opened => "OPEN"
  | some .closing => "CLOSING"
  | some .closed => "CLOSED"

/-- One failure cycle of a run of consecutive connection failures: the
current attempt fails (abnormal close, code 1006), which schedules a
reconnect; then the pending timer (if any) fires and reconnects.
Returns the delay scheduled by this failure, if any. -/
def failCycle (s : WSState) : WSState × Option ℕ :=
  let r := onClose 1006 s
  (fireReconnectTimer r.1, r.2)

/-- `n` consecutive connection failures starting from a fresh service
that called `connect(symbols)`: returns the final state and the list of
scheduled reconnect delays (one entry per failure; `none` when that
failure scheduled no timer). -/
def failRun (symbols : List String) : ℕ → WSState × List (Option ℕ)
  | 0 => (connect symbols initialState, [])
  | n + 1 =>
    let r := failRun symbols n
    let r' := failCycle r.1
    (r'.1, r.2 ++ [r'.2])

end WebSocketService

/-! ## Decimal rounding (`x.toFixed(d)` + `parseFloat`) -/

/-- `parseFloat(x.toFixed(4))`: round to 4 decimal places (nearest,
half up — which matches `toFixed` for the positive values produced by
the generators). -/
def round4 (x : ℚ) : ℚ := (round (x * 10000) : ℤ) / 10000

/-- `parseFloat(x.toFixed(0))`: round to an integer. -/
def round0 (x : ℚ) : ℚ := (round x : ℤ)

/-! ## BinanceService (src/services/binanceApi.ts) -/

namespace BinanceService

/-- One row of a Binance `/klines` response (the fields the service
reads; `closeTime`, trade counts etc. are never read and are omitted).
OHLCV values arrive as strings. -/
structure BinanceKlineData where
  openTime : ℕ
  «open» : String
  high : String
  low : String
  close : String
  volume : String
  deriving DecidableEq, Repr

/-- A Binance 24hr ticker object. -/
structure BinanceTicker where
  symbol : String
  price : String
  priceChange : String
  priceChangePercent : String
  highPrice : String
  lowPrice : String
  volume : String
  quoteVolume : String
  openPrice : String
  prevClosePrice : String
  lastPrice : String
  count : ℕ
  deriving DecidableEq, Repr

/-- `BinancePriceData` (the `last_updated` ISO-timestamp string is set
to the construction time in the source and read by no claim; it is
omitted here). -/
structure BinancePriceData where
  symbol : String
  current_price : ℚ
  price_change_percentage_24h : ℚ
  market_cap : ℚ
  total_volume : ℚ
  high_24h : ℚ
  low_24h : ℚ
  deriving DecidableEq, Repr

/-- A normalized candle as returned by the kline paths. -/
structure FormattedCandleData where
  time : ℕ
  «open» : ℚ
  high : ℚ
  low : ℚ
  close : ℚ
  volume : ℚ
  deriving DecidableEq, Repr

/-- The module-level `FALLBACK_CRYPTO_DATA` table, keyed by base
asset. -/
def FALLBACK_CRYPTO_DATA : String → Option BinancePriceData
  | "BTC" => some ⟨"BTCUSDT", 43500, 2.5, 0, 28000000000, 44200, 42800⟩
  | "ETH" => some ⟨"ETHUSDT", 2650, 3.2, 0, 15000000000, 2720, 2580⟩
  | "XRP" => some ⟨"XRPUSDT", 0.62, 1.8, 0, 2500000000, 0.65, 0.60⟩
  | "ADA" => some ⟨"ADAUSDT", 0.48, -0.5, 0, 800000000, 0.50, 0.46⟩
  | "SOL" => some ⟨"SOLUSDT", 105.5, 4.1, 0, 3200000000, 108, 102⟩
  | "DOT" => some ⟨"DOTUSDT", 7.25, 1.2, 0, 450000000, 7.45, 7.10⟩
  | "LINK" => some ⟨"LINKUSDT", 15.8, 2.8, 0, 680000000, 16.20, 15.40⟩
  | "LTC" => some ⟨"LTCUSDT", 75.2, 1.5, 0, 950000000, 76.80, 73.90⟩
  | "DOGE" => some ⟨"DOGEUSDT", 0.085, 5.2, 0, 1200000000, 0.089, 0.081⟩
  | _ => none

/-- The service's only mutable field: `private useFallback = false`. -/
structure BinanceState where
  useFallback : Bool
  deriving DecidableEq, Repr

/-- `formatInterval(timeframe)`: the interval map (note: no `'30m'`
key), defaulting to `'1h'`. -/
def formatInterval (timeframe : String) : String :=
  match timeframe with
  | "1m" => "1m"
  | "5m" => "5m"
  | "15m" => "15m"
  | "1h" => "1h"
  | "4h" => "4h"
  | "1d" => "1d"
  | "1w" => "1w"
  | _ => "1h"

/-- `getIntervalMs(interval)`, defaulting to 1 hour. -/
def getIntervalMs (interval : String) : ℕ :=
  match interval with
  | "1m" => 60000
  | "5m" => 300000
  | "15m" => 900000
  | "1h" => 3600000
  | "4h" => 14400000
  | "1d" => 86400000
  | "1w" => 604800000
  | _ => 3600000

/-- `generateMockKlineData(symbol, interval, limit)`.  The loop runs
`i = limit-1 … 0`; the candle for countdown `i` is the `k`-th pushed
(`k = limit-1-i`) and consumes the five `Math.random()` draws
`rands (5k) … rands (5k+4)` in source order (change, close-jitter,
high, low, volume).  `now` is `Date.now()` in ms. -/
def generateMockKlineData (rands : ℕ → ℚ) (symbol interval : String)
    (limit now : ℕ) : List FormattedCandleData :=
  let basePrice : ℚ := ((FALLBACK_CRYPTO_DATA symbol).map (·.current_price)).getD 100
  let intervalMs := getIntervalMs interval
  (List.range limit).map fun k =>
    let i := limit - 1 - k
    let j := 5 * k
    let volatility : ℚ := 0.02
    let change := (rands j - 0.5) * volatility
    let o := basePrice * (1 + change)
    let c := o * (1 + (rands (j + 1) - 0.5) * volatility)
    let h := max o c * (1 + rands (j + 2) * 0.01)
    let l := min o c * (1 - rands (j + 3) * 0.01)
    let v := rands (j + 4) * 1000000
    { time := (now - i * intervalMs) / 1000
      «open» := o, high := h, low := l, close := c, volume := v }

/-- The network outcomes a single service call can observe (`none`
models a fetch that throws or a non-ok HTTP status). -/
structure NetEnv where
  klines : Option (List BinanceKlineData)
  ticker24 : String → Option BinanceTicker
  allTickers : Option (List BinanceTicker)
  serverTime : Option ℕ

/-- `getKlineData(symbol, interval, limit)`.  Returns the new service
state, the candles, and the REST request issued
(`(pairSymbol, binanceInterval, limit)`; `none` when the fallback
branch answered without touching the network).  On fetch failure the
fallback flag is set and mock data returned. -/
def getKlineData (pf : String → ℚ) (rands : ℕ → ℚ) (env : NetEnv)
    (symbol interval : String) (limit now : ℕ) (s : BinanceState) :
    BinanceState × List FormattedCandleData × Option (String × String × ℕ) :=
  if s.useFallback then
    (s, generateMockKlineData rands symbol interval limit now, none)
  else
    let binanceInterval := formatInterval interval
    let req := (jsToUpper symbol ++ "USDT", binanceInterval, limit)
    match env.klines with
    | some data =>
      (s,
       data.map fun item =>
         { time := item.openTime / 1000
           «open» := pf item.«open», high := pf item.high, low := pf item.low
           close := pf item.close, volume := pf item.volume },
       some req)
    | none =>
      (⟨true⟩, generateMockKlineData rands symbol interval limit now, some req)

/-- The synthetic `BinanceTicker` assembled from a fallback table entry
(`numToStr` models JS number→string conversion, which no claim
inspects). -/
def mkFallbackTicker (numToStr : ℚ → String) (d : BinancePriceData) : BinanceTicker :=
  { symbol := d.symbol
    price := numToStr d.current_price
    priceChange := numToStr (d.current_price * d.price_change_percentage_24h / 100)
    priceChangePercent := numToStr d.price_change_percentage_24h
    highPrice := numToStr d.high_24h
    lowPrice := numToStr d.low_24h
    volume := numToStr d.total_volume
    quoteVolume := numToStr d.total_volume
    openPrice := numToStr (d.current_price * 0.98)
    prevClosePrice := numToStr (d.current_price * 0.99)
    lastPrice := numToStr d.current_price
    count := 50000 }

/-- `getTicker24hr(symbol)`.  In fallback mode a table hit answers
synthetically, but a symbol absent from the table FALLS THROUGH to the
network fetch; on fetch failure the flag is set and the method recurses
(`fuel` bounds that unbounded self-call; exhausted fuel returns
`none`).  The `Bool` records whether any network request was
attempted. -/
def getTicker24hr (numToStr : ℚ → String) (env : NetEnv) (symbol : String) :
    ℕ → BinanceState → BinanceState × Option BinanceTicker × Bool
  | 0, s => (s, none, false)
  | fuel + 1, s =>
    match (if s.useFallback then FALLBACK_CRYPTO_DATA (jsToUpper symbol) else none) with
    | some d => (s, some (mkFallbackTicker numToStr d), false)
    | none =>
      match env.ticker24 symbol with
      | some t => (s, some t, true)
      | none =>
        let r := getTicker24hr numToStr env symbol fuel ⟨true⟩
        (r.1, r.2.1, true)

/-- The conversion applied to a found ticker in `getCurrentPrice`
(`market_cap` hardcoded 0). -/
def convertTicker (pf : String → ℚ) (t : BinanceTicker) : BinancePriceData :=
  { symbol := t.symbol
    current_price := pf t.lastPrice
    price_change_percentage_24h := pf t.priceChangePercent
    market_cap := 0
    total_volume := pf t.volume
    high_24h := pf t.highPrice
    low_24h := pf t.lowPrice }

/-- The fallback branch of `getCurrentPrice`: keep only symbols present
in the table, keyed by the uppercased symbol. -/
def getCurrentPriceFallback (symbols : List String) : List (String × BinancePriceData) :=
  symbols.filterMap fun sym =>
    (FALLBACK_CRYPTO_DATA (jsToUpper sym)).map fun d => (jsToUpper sym, d)

/-- The success branch of `getCurrentPrice`: for each requested symbol
look up `SYMBOLUSDT` among the fetched tickers; absent symbols are
skipped (a `console.warn`), present ones are converted and keyed by the
uppercased symbol. -/
def buildPriceResult (pf : String → ℚ) (symbols : List String)
    (allTickers : List BinanceTicker) : List (String × BinancePriceData) :=
  symbols.filterMap fun sym =>
    (allTickers.find? fun t => t.symbol = jsToUpper sym ++ "USDT").map fun t =>
      (jsToUpper sym, convertTicker pf t)

/-- `getCurrentPrice(symbols)`.  In fallback mode: synthetic data, no
network.  Otherwise fetch all tickers; on failure set the flag and
recurse — that self-call lands in the (pure) fallback branch, which is
inlined here.  The `Bool` records whether a network request was
attempted. -/
def getCurrentPrice (pf : String → ℚ) (env : NetEnv) (symbols : List String)
    (s : BinanceState) : BinanceState × List (String × BinancePriceData) × Bool :=
  if s.useFallback then
    (s, getCurrentPriceFallback symbols, false)
  else
    match env.allTickers with
    | some allTickers => (s, buildPriceResult pf symbols allTickers, true)
    | none => (⟨true⟩, getCurrentPriceFallback symbols, true)

/-- `getServerTime()`: fallback mode answers `Date.now()` without a
request; otherwise fetch, and on failure set the flag and answer
`Date.now()`.  The `Bool` records whether a network request was
attempted. -/
def getServerTime (env : NetEnv) (dateNow : ℕ) (s : BinanceState) :
    BinanceState × ℕ × Bool :=
  if s.useFallback then (s, dateNow, false)
  else
    match env.serverTime with
    | some t => (s, t, true)
    | none => (⟨true⟩, dateNow, true)

/-- `isUsingFallback()`. -/
def isUsingFallback (s : BinanceState) : Bool := s.useFallback

/-- `setFallbackMode(useFallback)` — the explicit test hook, the only
writer that can clear the flag. -/
def setFallbackMode (b : Bool) (_s : BinanceState) : BinanceState := ⟨b⟩

end BinanceService

/-! ## Mock candle generator (src/data/mockKlines.ts) -/

namespace MockKlines

/-- A generated candle.  The source's `time` is a formatted date-time
string derived from the ms timestamp; no claim reads it, so the raw ms
timestamp is kept. -/
structure CandleData where
  time : ℕ
  «open» : ℚ
  high : ℚ
  low : ℚ
  close : ℚ
  volume : ℚ
  deriving DecidableEq, Repr

/-- The body of `generateMockCandles`' loop
(`for (i = count; i >= 0; i--)`), as a recursion on the number of
remaining iterations (`n + 1` remaining ⇒ current countdown `i = n`).
`currentPrice` is the running price (updated to the UNrounded close),
`k` the iteration index: iteration `k` consumes draws
`rands (5k) … rands (5k+4)` in source order (volatility, change, high,
low, volume).  OHLC values are pushed through
`parseFloat(x.toFixed(4))` (`round4`), volume through `toFixed(0)`
(`round0`). -/
def generateMockCandlesAux (rands : ℕ → ℚ) (tfMs nowMs : ℕ) :
    ℕ → ℚ → ℕ → List CandleData
  | 0, _, _ => []
  | n + 1, currentPrice, k =>
    let j := 5 * k
    let volatility : ℚ := 0.02 + rands j * 0.02
    let o := currentPrice
    let change := (rands (j + 1) - 0.5) * volatility * o
    let c := o + change
    let h := max o c + rands (j + 2) * 0.01 * max o c
    let l := min o c - rands (j + 3) * 0.01 * min o c
    let v := rands (j + 4) * 1000000 + 500000
    { time := nowMs - n * tfMs
      «open» := round4 o, high := round4 h, low := round4 l
      close := round4 c, volume := round0 v } ::
      generateMockCandlesAux rands tfMs nowMs n c (k + 1)

/-- `generateMockCandles(symbol, timeframe, count)`: base price by
symbol, timeframe minutes by key (default 60), then `count + 1` loop
iterations. -/
def generateMockCandles (rands : ℕ → ℚ) (symbol timeframe : String)
    (count nowMs : ℕ) : List CandleData :=
  let basePrice : ℚ :=
    if symbol = "BTC" then 45000
    else if symbol = "ETH" then 2800
    else if symbol = "XRP" then 0.6
    else 400
  let timeframeMinutes : ℕ :=
    match timeframe with
    | "1m" => 1
    | "5m" => 5
    | "15m" => 15
    | "1h" => 60
    | "1d" => 1440
    | "1w" => 10080
    | _ => 60
  generateMockCandlesAux rands (timeframeMinutes * 60 * 1000) nowMs
    (count + 1) basePrice 0

end MockKlines

/-! ## useCryptoData hook (src/hooks/useCryptoData.ts) -/

namespace UseCryptoData

/-- `CRYPTO_SYMBOLS`. -/
def CRYPTO_SYMBOLS : List String :=
  ["BTC", "ETH", "XRP", "ADA", "SOL", "DOT", "LINK", "LTC", "DOGE"]

/-- One `CRYPTO_CONFIG` entry. -/
structure CryptoConfigEntry where
  name : String
  logo : String
  deriving DecidableEq, Repr

/-- `CRYPTO_CONFIG`. -/
def CRYPTO_CONFIG : String → Option CryptoConfigEntry
  | "BTC" => some ⟨"Bitcoin", "₿"⟩
  | "ETH" => some ⟨"Ethereum", "Ξ"⟩
  | "XRP" => some ⟨"XRP", "◊"⟩
  | "ADA" => some ⟨"Cardano", "₳"⟩
  | "SOL" => some ⟨"Solana", "◎"⟩
  | "DOT" => some ⟨"Polkadot", "●"⟩
  | "LINK" => some ⟨"Chainlink", "⬢"⟩
  | "LTC" => some ⟨"Litecoin", "Ł"⟩
  | "DOGE" => some ⟨"Dogecoin", "Ð"⟩
  | _ => none

/-- `interface CryptoData`. -/
structure CryptoData where
  id : String
  symbol : String
  name : String
  pair : String
  price : ℚ
  change24h : ℚ
  high24h : ℚ
  low24h : ℚ
  marketCap : ℚ
  volume24h : ℚ
  logo : String
  isFavorite : Bool
  deriving DecidableEq, Repr

/-- `convertApiDataToCryptoData`: map each `(key, BinancePriceData)`
entry to a `CryptoData` (`marketCap: data.market_cap || 0` is the
identity on the number 0 the service stores there). -/
def convertApiDataToCryptoData
    (apiData : List (String × BinanceService.BinancePriceData)) : List CryptoData :=
  apiData.map fun p =>
    { id := jsToLower p.1
      symbol := jsToUpper p.1
      name := ((CRYPTO_CONFIG p.1).map (·.name)).getD p.1
      pair := jsToUpper p.1 ++ "/USDT"
      price := p.2.current_price
      change24h := p.2.price_change_percentage_24h
      high24h := p.2.high_24h
      low24h := p.2.low_24h
      marketCap := p.2.market_cap
      volume24h := p.2.total_volume
      logo := ((CRYPTO_CONFIG p.1).map (·.logo)).getD "●"
      isFavorite := p.1 = "ETH" }

/-- The reactive fields of the hook that bootstrap touches. -/
structure HookState where
  cryptoData : List CryptoData
  isConnected : Bool
  error : Option String
  lastUpdate : Option ℕ
  deriving DecidableEq, Repr

/-- `fetchInitialData()` from the initial hook state: `getServerTime`
(may flip the service into fallback), then `getCurrentPrice` for
`CRYPTO_SYMBOLS`.  An empty result throws
`'No data received from API'`, landing in the catch (error message set,
`isConnected` false).  Otherwise the records are installed,
`lastUpdate` set, `isConnected` set TRUE, and — if the service is now
in fallback mode — the demo-data error banner is set.  Returns the
service state and the hook state after the call. -/
def fetchInitialData (pf : String → ℚ) (env : BinanceService.NetEnv)
    (dateNow : ℕ) (svc : BinanceService.BinanceState) :
    BinanceService.BinanceState × HookState :=
  let r1 := BinanceService.getServerTime env dateNow svc
  let r2 := BinanceService.getCurrentPrice pf env CRYPTO_SYMBOLS r1.1
  let apiData := r2.2.1
  if apiData.isEmpty then
    (r2.1,
     { cryptoData := []
       isConnected := false
       error := some "API Error: No data received from API"
       lastUpdate := none })
  else
    (r2.1,
     { cryptoData := convertApiDataToCryptoData apiData
       isConnected := true
       error :=
         if BinanceService.isUsingFallback r2.1 then
           some "Using demo data - Binance API unavailable due to browser CORS restrictions"
         else none
       lastUpdate := some dateNow })

/-- `setupWebSocket` (run 2 s after mount): the subscription and the
`websocketService.connect` timer are installed only when
`!binanceService.isUsingFallback()`; in fallback mode the streaming
manager is never started. -/
def setupWebSocketStarts (svc : BinanceService.BinanceState) : Bool :=
  !BinanceService.isUsingFallback svc

end UseCryptoData

/-! ## Helper lemmas -/

/-- The fan-out loop invokes exactly the registered callbacks, in
iteration order, whatever each one's throwing behaviour. -/
lemma notifyAll_fst (cbs : List WebSocketService.Callback)
    (u : WebSocketService.PriceUpdate) :
    (WebSocketService.notifyAll cbs u).1 = cbs.map WebSocketService.Callback.id := by
  induction cbs with
  | nil => rfl
  | cons cb rest ih =>
    cases h : cb.throwsOn u <;> simp [WebSocketService.notifyAll, h, ih]

/-- An `Option.toList` has at most one element. -/
lemma toList_length_le_one {α : Type} (o : Option α) : o.toList.length ≤ 1 := by
  cases o <;> simp

/-! ## Claim theorems -/

/-- C3: publishing a `PriceUpdate` invokes every currently-registered
callback exactly once with that update; a throwing callback's exception
is caught (recorded, not propagated) and every remaining callback is
still invoked — in particular, with three subscribers where the second
throws, the first and third are both invoked. -/
theorem C3_fanout_error_isolation
    (cbs : List WebSocketService.Callback) (u : WebSocketService.PriceUpdate)
    (c1 c2 c3 : WebSocketService.Callback) (h2 : c2.throwsOn u = true) :
    (WebSocketService.notifyAll cbs u).1 = cbs.map WebSocketService.Callback.id ∧
    (WebSocketService.notifyAll [c1, c2, c3] u).1 = [c1.id, c2.id, c3.id] ∧
    c2.id ∈ (WebSocketService.notifyAll [c1, c2, c3] u).2 := by
  refine ⟨notifyAll_fst cbs u, ?_, ?_⟩
  · simpa using notifyAll_fst [c1, c2, c3] u
  · cases h1 : c1.throwsOn u <;> cases h3 : c3.throwsOn u <;>
      simp [WebSocketService.notifyAll, h1, h2, h3]

/-- Witness for C3 at a concrete input: three subscribers, the second
throwing. -/
theorem C3_fanout_error_isolation_witness :
    (WebSocketService.Callback.mk 2 (fun _ => true)).throwsOn ⟨"btc", 0, 0⟩ = true ∧
    ((WebSocketService.notifyAll
        [⟨1, fun _ => false⟩, ⟨2, fun _ => true⟩, ⟨3, fun _ => false⟩] ⟨"btc", 0, 0⟩).1 =
      ([⟨1, fun _ => false⟩, ⟨2, fun _ => true⟩, ⟨3, fun _ => false⟩] :
          List WebSocketService.Callback).map WebSocketService.Callback.id ∧
     (WebSocketService.notifyAll
        [⟨1, fun _ => false⟩, ⟨2, fun _ => true⟩, ⟨3, fun _ => false⟩] ⟨"btc", 0, 0⟩).1 =
      [1, 2, 3] ∧
     2 ∈ (WebSocketService.notifyAll
        [⟨1, fun _ => false⟩, ⟨2, fun _ => true⟩, ⟨3, fun _ => false⟩] ⟨"btc", 0, 0⟩).2) :=
  ⟨rfl, C3_fanout_error_isolation _ ⟨"btc", 0, 0⟩
    ⟨1, fun _ => false⟩ ⟨2, fun _ => true⟩ ⟨3, fun _ => false⟩ rfl⟩

/-- C9 counterexample: the interval-mapping function is NOT the
identity on the enumerated interval set — `'30m'` has no entry in the
map and falls through to the `'1h'` default. -/
theorem C9_counterexample :
    BinanceService.formatInterval "30m" = "1h" ∧ "1h" ≠ "30m" :=
  ⟨rfl, by decide⟩

/-- C9 amended: `formatInterval` is the identity on
`{1m, 5m, 15m, 1h, 4h, 1d, 1w}` but maps the enumerated key `'30m'`
(and any other unknown key) to the default `'1h'`; the candle-fetch
path requests exactly `formatInterval interval` (with the uppercased
pair symbol and the result-count limit) from the REST candle
endpoint. -/
theorem C9_amended_interval_mapping :
    BinanceService.formatInterval "1m" = "1m" ∧
    BinanceService.formatInterval "5m" = "5m" ∧
    BinanceService.formatInterval "15m" = "15m" ∧
    BinanceService.formatInterval "1h" = "1h" ∧
    BinanceService.formatInterval "4h" = "4h" ∧
    BinanceService.formatInterval "1d" = "1d" ∧
    BinanceService.formatInterval "1w" = "1w" ∧
    BinanceService.formatInterval "30m" = "1h" ∧
    ∀ (pf rands : _) (env : BinanceService.NetEnv) (symbol interval : String)
      (limit now : ℕ),
      (BinanceService.getKlineData pf rands env symbol interval limit now ⟨false⟩).2.2 =
        some (jsToUpper symbol ++ "USDT", BinanceService.formatInterval interval, limit) := by
  refine ⟨rfl, rfl, rfl, rfl, rfl, rfl, rfl, rfl, ?_⟩
  intro pf rands env symbol interval limit now
  unfold BinanceService.getKlineData
  cases env.klines <;> simp

/-- C5 counterexample: the update built from frame symbol `"BTCUSDT"`
has symbolKey `"btc"`, not the claimed uppercase `"BTC"` — the code
lowercases the stripped pair symbol. -/
theorem C5_counterexample :
    (WebSocketService.handleTickerUpdate (fun _ => 0)
        ⟨some "BTCUSDT", some "43000", some "2.5", none⟩).map
      WebSocketService.PriceUpdate.symbol = some "btc" ∧ ("btc" : String) ≠ "BTC" :=
  ⟨rfl, by decide⟩

/-- C5 amended: every `PriceUpdate` produced from an inbound ticker
frame whose pair symbol is `B ++ "USDT"` for a tracked base asset `B`
has its symbolKey equal to the LOWERCASE base asset (`"btc"` from
`"BTCUSDT"`). -/
theorem C5_amended_symbol_is_lowercase_base
    (pf : String → ℚ) (t : WebSocketService.TickerData)
    (u : WebSocketService.PriceUpdate) (base : String)
    (hb : base ∈ UseCryptoData.CRYPTO_SYMBOLS)
    (hs : t.s = some (base ++ "USDT"))
    (hu : WebSocketService.handleTickerUpdate pf t = some u) :
    u.symbol = jsToLower base := by
  unfold WebSocketService.handleTickerUpdate at hu
  split at hu
  · have h := Option.some.inj hu
    subst h
    rw [hs]
    fin_cases hb <;> rfl
  · exact absurd hu (by simp)

/-- Witness for C5 amended: the `"ETHUSDT"` frame yields symbolKey
`"eth"`. -/
theorem C5_amended_symbol_is_lowercase_base_witness :
    "ETH" ∈ UseCryptoData.CRYPTO_SYMBOLS ∧
    (WebSocketService.TickerData.mk (some "ETHUSDT") (some "1") (some "2") none).s =
      some ("ETH" ++ "USDT") ∧
    WebSocketService.handleTickerUpdate (fun _ => 0)
      ⟨some "ETHUSDT", some "1", some "2", none⟩ = some ⟨"eth", 0, 0⟩ ∧
    (WebSocketService.PriceUpdate.mk "eth" 0 0).symbol = jsToLower "ETH" :=
  ⟨by decide, rfl, rfl,
    C5_amended_symbol_is_lowercase_base (fun _ => 0)
      ⟨some "ETHUSDT", some "1", some "2", none⟩ ⟨"eth", 0, 0⟩ "ETH"
      (by decide) rfl rfl⟩

/-- C4 counterexample: an inbound combined-stream ARRAY frame with two
valid ticker items yields two fan-out deliveries, refuting "every
inbound frame yields at most one fan-out delivery". -/
theorem C4_counterexample :
    (WebSocketService.onMessage (fun _ => 0)
        (some (WebSocketService.WsData.arr
          [⟨some ⟨some "BTCUSDT", some "100", some "2.5", some "24hrTicker"⟩⟩,
           ⟨some ⟨some "ETHUSDT", some "200", some "3.2", some "24hrTicker"⟩⟩]))).length = 2 ∧
    1 < (WebSocketService.onMessage (fun _ => 0)
        (some (WebSocketService.WsData.arr
          [⟨some ⟨some "BTCUSDT", some "100", some "2.5", some "24hrTicker"⟩⟩,
           ⟨some ⟨some "ETHUSDT", some "200", some "3.2", some "24hrTicker"⟩⟩]))).length := by
  exact ⟨rfl, by decide⟩

/-- C4 amended: frames that fail to parse publish nothing and surface
no error; a ticker payload missing a required field (`s`, `c`, `P`) is
silently dropped; a non-array frame yields at most one fan-out
delivery; an array frame yields at most one delivery per array
item. -/
theorem C4_amended_frame_handling (pf : String → ℚ) :
    WebSocketService.onMessage pf none = [] ∧
    (∀ t : WebSocketService.TickerData,
       (WebSocketService.truthy t.s && WebSocketService.truthy t.c &&
          WebSocketService.truthy t.P) = false →
       WebSocketService.handleTickerUpdate pf t = none) ∧
    (∀ stream dat tk,
       (WebSocketService.onMessage pf
         (some (WebSocketService.WsData.objData stream dat tk))).length ≤ 1) ∧
    (∀ items,
       (WebSocketService.onMessage pf
         (some (WebSocketService.WsData.arr items))).length ≤ items.length) := by
  refine ⟨rfl, ?_, ?_, ?_⟩
  · intro t ht
    simp [WebSocketService.handleTickerUpdate, ht]
  · intro stream dat tk
    simp only [WebSocketService.onMessage]
    split
    · exact toList_length_le_one _
    · split
      · exact toList_length_le_one _
      · simp
  · intro items
    induction items with
    | nil => simp [WebSocketService.onMessage]
    | cons it rest ih =>
      have hone : (match it.dat with
          | some d => if d.e = some "24hrTicker"
              then (WebSocketService.handleTickerUpdate pf d).toList else []
          | none => ([] : List WebSocketService.PriceUpdate)).length ≤ 1 := by
        rcases it with ⟨_ | d⟩
        · simp
        · by_cases hd : d.e = some "24hrTicker"
          · simpa [hd] using
              toList_length_le_one (WebSocketService.handleTickerUpdate pf d)
          · simp [hd]
      simp only [WebSocketService.onMessage, List.flatMap_cons, List.length_append,
        List.length_cons] at ih hone ⊢
      omega

/-- Witness for C4 amended: a payload with a missing symbol field is
dropped. -/
theorem C4_amended_frame_handling_witness :
    WebSocketService.onMessage (fun _ => 0) none = [] ∧
    ((WebSocketService.truthy (WebSocketService.TickerData.mk none (some "1") (some "2") none).s &&
        WebSocketService.truthy (WebSocketService.TickerData.mk none (some "1") (some "2") none).c &&
        WebSocketService.truthy (WebSocketService.TickerData.mk none (some "1") (some "2") none).P) = false ∧
     WebSocketService.handleTickerUpdate (fun _ => 0) ⟨none, some "1", some "2", none⟩ = none) :=
  ⟨(C4_amended_frame_handling (fun _ => 0)).1,
   by decide,
   (C4_amended_frame_handling (fun _ => 0)).2.1 ⟨none, some "1", some "2", none⟩ (by decide)⟩

/-- C6: calling `disconnect()` while a reconnect timer is pending
cancels the timer (field nulled), resets the attempt counter, nulls the
socket after closing it with the normal-closure code 1000 (when one was
present), and a subsequent fire of the cancelled timer is a no-op — its
scheduled `connect()` never executes. -/
theorem C6_disconnect_cancels_pending_reconnect
    (s : WebSocketService.WSState) (d : ℕ)
    (hpend : s.reconnectTimer = some d) :
    (WebSocketService.disconnect s).1.reconnectTimer = none ∧
    (WebSocketService.disconnect s).1.reconnectAttempts = 0 ∧
    (WebSocketService.disconnect s).1.ws = none ∧
    (s.ws.isSome = true → (WebSocketService.disconnect s).2 = some 1000) ∧
    WebSocketService.fireReconnectTimer (WebSocketService.disconnect s).1 =
      (WebSocketService.disconnect s).1 := by
  refine ⟨rfl, rfl, rfl, ?_, rfl⟩
  intro hws
  simp [WebSocketService.disconnect, hws]

/-- Witness for C6 at a concrete state with a pending 5000 ms timer and
an open socket. -/
theorem C6_disconnect_cancels_pending_reconnect_witness :
    (WebSocketService.WSState.mk (some .opened) (some 5000) false 3 ["btc"]).reconnectTimer =
      some 5000 ∧
    ((WebSocketService.disconnect ⟨some .opened, some 5000, false, 3, ["btc"]⟩).1.reconnectTimer = none ∧
     (WebSocketService.disconnect ⟨some .opened, some 5000, false, 3, ["btc"]⟩).1.reconnectAttempts = 0 ∧
     (WebSocketService.disconnect ⟨some .opened, some 5000, false, 3, ["btc"]⟩).1.ws = none ∧
     ((WebSocketService.WSState.mk (some .opened) (some 5000) false 3 ["btc"]).ws.isSome = true →
       (WebSocketService.disconnect ⟨some .opened, some 5000, false, 3, ["btc"]⟩).2 = some 1000) ∧
     WebSocketService.fireReconnectTimer
        (WebSocketService.disconnect ⟨some .opened, some 5000, false, 3, ["btc"]⟩).1 =
      (WebSocketService.disconnect ⟨some .opened, some 5000, false, 3, ["btc"]⟩).1) :=
  ⟨rfl, C6_disconnect_cancels_pending_reconnect ⟨some .opened, some 5000, false, 3, ["btc"]⟩ 5000 rfl⟩

/-- C1 counterexample: after the 5th consecutive failure no further
timer is scheduled, but the connection state reported after the run is
`'CLOSED'`, not `'FALLBACK'` — the service has no FALLBACK state at
all. -/
theorem C1_counterexample :
    WebSocketService.getConnectionState (WebSocketService.failRun ["btc"] 6).1 = "CLOSED" ∧
    WebSocketService.getConnectionState (WebSocketService.failRun ["btc"] 6).1 ≠ "FALLBACK" :=
  ⟨rfl, by decide⟩

set_option maxRecDepth 100000 in
/-- C1 amended: for a run of consecutive connection failures starting
with the attempt counter at 0, the n-th scheduled reconnect delay
(n = 1..5) is `min(1000·2^(n-1), 30000)` ms, i.e.
1000, 2000, 4000, 8000, 16000; once the counter has reached 5 before a
successful open, no further reconnect timer is scheduled
(6th failure schedules `none`, timer field stays null) and
`getConnectionState` reports `'CLOSED'` — no reachable or even
representable state reports `'FALLBACK'`. -/
theorem C1_amended_backoff_sequence (symbols : List String) :
    (WebSocketService.failRun symbols 5).2 =
      [some 1000, some 2000, some 4000, some 8000, some 16000] ∧
    (WebSocketService.failRun symbols 6).2 =
      [some 1000, some 2000, some 4000, some 8000, some 16000, none] ∧
    (WebSocketService.failRun symbols 6).1.reconnectTimer = none ∧
    WebSocketService.getConnectionState (WebSocketService.failRun symbols 6).1 = "CLOSED" ∧
    ∀ s : WebSocketService.WSState, WebSocketService.getConnectionState s ≠ "FALLBACK" := by
  have step : ∀ n, WebSocketService.failRun symbols (n + 1) =
      ((WebSocketService.failCycle (WebSocketService.failRun symbols n).1).1,
       (WebSocketService.failRun symbols n).2 ++
         [(WebSocketService.failCycle (WebSocketService.failRun symbols n).1).2]) :=
    fun n => rfl
  have h0 : WebSocketService.failRun symbols 0 =
      (⟨some .connecting, none, true, 0, symbols⟩, []) := rfl
  have hc : ∀ k : ℕ, k < 5 →
      WebSocketService.failCycle ⟨some .connecting, none, true, k, symbols⟩ =
        (⟨some .connecting, none, true, k + 1, symbols⟩,
         some (min (1000 * 2 ^ k) 30000)) := by
    intro k hk
    simp [WebSocketService.failCycle, WebSocketService.onClose,
      WebSocketService.scheduleReconnect, WebSocketService.maxReconnectAttempts,
      WebSocketService.fireReconnectTimer, WebSocketService.connect,
      Nat.not_le.mpr hk]
  have h1 := step 0
  rw [h0] at h1; simp only [hc 0 (by norm_num)] at h1
  have h2 := step 1
  rw [h1] at h2; simp only [hc 1 (by norm_num)] at h2
  have h3 := step 2
  rw [h2] at h3; simp only [hc 2 (by norm_num)] at h3
  have h4 := step 3
  rw [h3] at h4; simp only [hc 3 (by norm_num)] at h4
  have h5 := step 4
  rw [h4] at h5; simp only [hc 4 (by norm_num)] at h5
  have hc5 : WebSocketService.failCycle ⟨some .connecting, none, true, 5, symbols⟩ =
      (⟨none, none, false, 5, symbols⟩, none) := rfl
  have h6 := step 5
  rw [h5] at h6; simp only [hc5] at h6
  norm_num at h1 h2 h3 h4 h5 h6
  refine ⟨?_, ?_, ?_, ?_, ?_⟩
  · rw [h5]
  · rw [h6]
  · rw [h6]
  · rw [h6]; rfl
  · intro s
    rcases s with ⟨_ | rs, _, _, _, _⟩
    · simp [WebSocketService.getConnectionState]
    · cases rs <;> simp [WebSocketService.getConnectionState]

/-- C8: if the quote endpoint's response contains no ticker for a
requested symbol `k`, the call succeeds (no exception, no fallback
flip) and the returned mapping simply has no entry keyed by `k` — it is
absent, not inserted with null or default fields. -/
theorem C8_missing_symbol_left_absent
    (pf : String → ℚ) (env : BinanceService.NetEnv) (symbols : List String)
    (allTickers : List BinanceService.BinanceTicker) (k : String)
    (henv : env.allTickers = some allTickers)
    (hk : k ∈ symbols)
    (habs : ∀ t ∈ allTickers, t.symbol ≠ jsToUpper k ++ "USDT") :
    (BinanceService.getCurrentPrice pf env symbols ⟨false⟩).1 = ⟨false⟩ ∧
    ∀ p ∈ (BinanceService.getCurrentPrice pf env symbols ⟨false⟩).2.1,
      p.1 ≠ jsToUpper k := by
  have hgc : BinanceService.getCurrentPrice pf env symbols ⟨false⟩ =
      (⟨false⟩, BinanceService.buildPriceResult pf symbols allTickers, true) := by
    simp [BinanceService.getCurrentPrice, henv]
  refine ⟨by simp [hgc], ?_⟩
  intro p hp hkey
  rw [hgc] at hp
  simp only [BinanceService.buildPriceResult, List.mem_filterMap, Option.map_eq_some']
    at hp
  obtain ⟨sym, _, t, hfind, rfl⟩ := hp
  have hmem := List.mem_of_find?_eq_some hfind
  have hpred := List.find?_some hfind
  have hsym : t.symbol = jsToUpper sym ++ "USDT" := by
    simpa using hpred
  have : jsToUpper sym = jsToUpper k := hkey
  exact habs t hmem (by rw [hsym, this])

/-- Witness for C8: requesting `["BTC", "FOO"]` against a response
holding only the BTC ticker leaves `"FOO"` absent. -/
theorem C8_missing_symbol_left_absent_witness :
    (BinanceService.NetEnv.mk none (fun _ => none)
        (some [⟨"BTCUSDT", "1", "1", "1", "1", "1", "1", "1", "1", "1", "1", 1⟩]) none).allTickers =
      some [⟨"BTCUSDT", "1", "1", "1", "1", "1", "1", "1", "1", "1", "1", 1⟩] ∧
    "FOO" ∈ ["BTC", "FOO"] ∧
    (∀ t ∈ [BinanceService.BinanceTicker.mk "BTCUSDT" "1" "1" "1" "1" "1" "1" "1" "1" "1" "1" 1],
      t.symbol ≠ jsToUpper "FOO" ++ "USDT") ∧
    ((BinanceService.getCurrentPrice (fun _ => 0)
        ⟨none, fun _ => none,
         some [⟨"BTCUSDT", "1", "1", "1", "1", "1", "1", "1", "1", "1", "1", 1⟩], none⟩
        ["BTC", "FOO"] ⟨false⟩).1 = ⟨false⟩ ∧
     ∀ p ∈ (BinanceService.getCurrentPrice (fun _ => 0)
        ⟨none, fun _ => none,
         some [⟨"BTCUSDT", "1", "1", "1", "1", "1", "1", "1", "1", "1", "1", 1⟩], none⟩
        ["BTC", "FOO"] ⟨false⟩).2.1, p.1 ≠ jsToUpper "FOO") :=
  ⟨rfl, by decide, by decide,
   C8_missing_symbol_left_absent (fun _ => 0) _ ["BTC", "FOO"] _ "FOO" rfl
     (by decide) (by decide)⟩

/-- C2 counterexample: when every network path fails during bootstrap,
the hook ends with `connected = TRUE`, not the claimed `false` — the
fallback path returns data normally, so the success branch
(`setIsConnected(true)`) runs and the catch branch never does. -/
theorem C2_counterexample :
    (UseCryptoData.fetchInitialData (fun _ => 0) ⟨none, fun _ => none, none, none⟩ 0
        ⟨false⟩).2.isConnected = true := by
  rfl

/-- C2 amended: if the bootstrap quote fetch fails with a network
error, the record set is fully populated with synthetic data for every
requested symbol, the service is left in fallback mode so the streaming
connection manager is never started, and the demo-data error banner is
set — but the exposed connected flag ends up TRUE (the fallback result
flows through the success branch), not false. -/
theorem C2_amended_bootstrap_network_failure
    (pf : String → ℚ) (env : BinanceService.NetEnv) (dateNow : ℕ)
    (henv : env.allTickers = none) :
    (UseCryptoData.fetchInitialData pf env dateNow ⟨false⟩).1.useFallback = true ∧
    (UseCryptoData.fetchInitialData pf env dateNow ⟨false⟩).2.cryptoData.map
        (·.symbol) = UseCryptoData.CRYPTO_SYMBOLS ∧
    (UseCryptoData.fetchInitialData pf env dateNow ⟨false⟩).2.cryptoData =
      UseCryptoData.convertApiDataToCryptoData
        (BinanceService.getCurrentPriceFallback UseCryptoData.CRYPTO_SYMBOLS) ∧
    (UseCryptoData.fetchInitialData pf env dateNow ⟨false⟩).2.isConnected = true ∧
    (UseCryptoData.fetchInitialData pf env dateNow ⟨false⟩).2.error.isSome = true ∧
    UseCryptoData.setupWebSocketStarts
      (UseCryptoData.fetchInitialData pf env dateNow ⟨false⟩).1 = false := by
  rcases env with ⟨kl, t24, allT, st⟩
  cases henv
  cases st <;> exact ⟨rfl, rfl, rfl, rfl, rfl, rfl⟩

/-- Witness for C2 amended at the all-failing environment. -/
theorem C2_amended_bootstrap_network_failure_witness :
    (BinanceService.NetEnv.mk none (fun _ => none) none none).allTickers = none ∧
    ((UseCryptoData.fetchInitialData (fun _ => 0) ⟨none, fun _ => none, none, none⟩ 0
        ⟨false⟩).1.useFallback = true ∧
     (UseCryptoData.fetchInitialData (fun _ => 0) ⟨none, fun _ => none, none, none⟩ 0
        ⟨false⟩).2.cryptoData.map (·.symbol) = UseCryptoData.CRYPTO_SYMBOLS ∧
     (UseCryptoData.fetchInitialData (fun _ => 0) ⟨none, fun _ => none, none, none⟩ 0
        ⟨false⟩).2.cryptoData =
       UseCryptoData.convertApiDataToCryptoData
         (BinanceService.getCurrentPriceFallback UseCryptoData.CRYPTO_SYMBOLS) ∧
     (UseCryptoData.fetchInitialData (fun _ => 0) ⟨none, fun _ => none, none, none⟩ 0
        ⟨false⟩).2.isConnected = true ∧
     (UseCryptoData.fetchInitialData (fun _ => 0) ⟨none, fun _ => none, none, none⟩ 0
        ⟨false⟩).2.error.isSome = true ∧
     UseCryptoData.setupWebSocketStarts
       (UseCryptoData.fetchInitialData (fun _ => 0) ⟨none, fun _ => none, none, none⟩ 0
         ⟨false⟩).1 = false) :=
  ⟨rfl, C2_amended_bootstrap_network_failure (fun _ => 0)
    ⟨none, fun _ => none, none, none⟩ 0 rfl⟩

/-- `getTicker24hr` never clears the fallback flag, whatever the fuel. -/
lemma getTicker24hr_keeps_fallback (numToStr : ℚ → String)
    (env : BinanceService.NetEnv) (symbol : String) :
    ∀ (fuel : ℕ) (s : BinanceService.BinanceState), s.useFallback = true →
      (BinanceService.getTicker24hr numToStr env symbol fuel s).1.useFallback = true := by
  intro fuel
  induction fuel with
  | zero => intro s hs; simpa [BinanceService.getTicker24hr] using hs
  | succ n ih =>
    intro s hs
    simp only [BinanceService.getTicker24hr]
    cases hfb : (if s.useFallback then
        BinanceService.FALLBACK_CRYPTO_DATA (jsToUpper symbol) else none) with
    | some d => simpa using hs
    | none =>
      cases ht : env.ticker24 symbol with
      | some t => simpa using hs
      | none => simpa using ih ⟨true⟩ rfl

/-- C10 counterexample: with the fallback flag already set,
`getTicker24hr` for a symbol absent from the fallback table
(`"FOO"`) still attempts a network request (the fallback branch falls
through to the fetch), refuting "every subsequent call to these
operations returns synthetic/fallback data without attempting a
network request". -/
theorem C10_counterexample :
    (BinanceService.getTicker24hr (fun _ => "") ⟨none, fun _ => none, none, none⟩
        "FOO" 1 ⟨true⟩).2.2 = true := by
  rfl

/-- C10 amended: the fallback flag is monotone — a failing network call
in `getKlineData`, `getCurrentPrice`, `getServerTime` or
`getTicker24hr` sets it, no fetch operation ever clears it (only the explicit test hook
`setFallbackMode` can), and once it is set `getKlineData`,
`getCurrentPrice` and `getServerTime` answer synthetically without any
network attempt, as does `getTicker24hr` for symbols present in the
fallback table — but `getTicker24hr` for a symbol OUTSIDE the table
still attempts the network even in fallback mode. -/
theorem C10_amended_fallback_flag_monotone
    (pf : String → ℚ) (numToStr : ℚ → String) (rands : ℕ → ℚ)
    (env : BinanceService.NetEnv) (dateNow : ℕ) (symbols : List String)
    (symbol interval : String) (limit now fuel : ℕ)
    (s : BinanceService.BinanceState) (hs : s.useFallback = true) :
    BinanceService.getKlineData pf rands env symbol interval limit now s =
      (s, BinanceService.generateMockKlineData rands symbol interval limit now, none) ∧
    BinanceService.getCurrentPrice pf env symbols s =
      (s, BinanceService.getCurrentPriceFallback symbols, false) ∧
    BinanceService.getServerTime env dateNow s = (s, dateNow, false) ∧
    (∀ d, BinanceService.FALLBACK_CRYPTO_DATA (jsToUpper symbol) = some d →
      BinanceService.getTicker24hr numToStr env symbol (fuel + 1) s =
        (s, some (BinanceService.mkFallbackTicker numToStr d), false)) ∧
    (BinanceService.getTicker24hr numToStr env symbol fuel s).1.useFallback = true ∧
    (env.klines = none →
      (BinanceService.getKlineData pf rands env symbol interval limit now
        ⟨false⟩).1.useFallback = true) ∧
    (env.allTickers = none →
      (BinanceService.getCurrentPrice pf env symbols ⟨false⟩).1.useFallback = true) ∧
    (env.serverTime = none →
      (BinanceService.getServerTime env dateNow ⟨false⟩).1.useFallback = true) ∧
    (env.ticker24 symbol = none →
      (BinanceService.getTicker24hr numToStr env symbol (fuel + 1)
        ⟨false⟩).1.useFallback = true) ∧
    BinanceService.setFallbackMode false s = ⟨false⟩ ∧
    BinanceService.setFallbackMode true s = ⟨true⟩ := by
  refine ⟨?_, ?_, ?_, ?_, ?_, ?_, ?_, ?_, ?_, rfl, rfl⟩
  · simp [BinanceService.getKlineData, hs]
  · simp [BinanceService.getCurrentPrice, hs]
  · simp [BinanceService.getServerTime, hs]
  · intro d hd
    simp [BinanceService.getTicker24hr, hs, hd]
  · exact getTicker24hr_keeps_fallback numToStr env symbol fuel s hs
  · intro h
    simp [BinanceService.getKlineData, h]
  · intro h
    simp [BinanceService.getCurrentPrice, h]
  · intro h
    simp [BinanceService.getServerTime, h]
  · intro h
    simp only [BinanceService.getTicker24hr, if_neg Bool.false_ne_true]
    simp only [h]
    exact getTicker24hr_keeps_fallback numToStr env symbol fuel ⟨true⟩ rfl

/-- Witness for C10 amended at concrete inputs (flag already set,
all-failing environment). -/
theorem C10_amended_fallback_flag_monotone_witness :
    (BinanceService.BinanceState.mk true).useFallback = true ∧
    (BinanceService.getKlineData (fun _ => 0) (fun _ => 0)
        ⟨none, fun _ => none, none, none⟩ "BTC" "1h" 0 0 ⟨true⟩ =
      (⟨true⟩, BinanceService.generateMockKlineData (fun _ => 0) "BTC" "1h" 0 0, none) ∧
     BinanceService.getCurrentPrice (fun _ => 0) ⟨none, fun _ => none, none, none⟩ [] ⟨true⟩ =
      (⟨true⟩, BinanceService.getCurrentPriceFallback [], false) ∧
     BinanceService.getServerTime ⟨none, fun _ => none, none, none⟩ 0 ⟨true⟩ =
      (⟨true⟩, 0, false) ∧
     (∀ d, BinanceService.FALLBACK_CRYPTO_DATA (jsToUpper "BTC") = some d →
       BinanceService.getTicker24hr (fun _ => "") ⟨none, fun _ => none, none, none⟩
           "BTC" (0 + 1) ⟨true⟩ =
         (⟨true⟩, some (BinanceService.mkFallbackTicker (fun _ => "") d), false)) ∧
     (BinanceService.getTicker24hr (fun _ => "") ⟨none, fun _ => none, none, none⟩
        "BTC" 0 ⟨true⟩).1.useFallback = true ∧
     ((BinanceService.NetEnv.mk none (fun _ => none) none none).klines = none →
       (BinanceService.getKlineData (fun _ => 0) (fun _ => 0)
         ⟨none, fun _ => none, none, none⟩ "BTC" "1h" 0 0 ⟨false⟩).1.useFallback = true) ∧
     ((BinanceService.NetEnv.mk none (fun _ => none) none none).allTickers = none →
       (BinanceService.getCurrentPrice (fun _ => 0) ⟨none, fun _ => none, none, none⟩
         [] ⟨false⟩).1.useFallback = true) ∧
     ((BinanceService.NetEnv.mk none (fun _ => none) none none).serverTime = none →
       (BinanceService.getServerTime ⟨none, fun _ => none, none, none⟩ 0
         ⟨false⟩).1.useFallback = true) ∧
     ((BinanceService.NetEnv.mk none (fun _ => none) none none).ticker24 "BTC" = none →
       (BinanceService.getTicker24hr (fun _ => "") ⟨none, fun _ => none, none, none⟩
         "BTC" (0 + 1) ⟨false⟩).1.useFallback = true) ∧
     BinanceService.setFallbackMode false ⟨true⟩ = ⟨false⟩ ∧
     BinanceService.setFallbackMode true ⟨true⟩ = ⟨true⟩) :=
  ⟨rfl, C10_amended_fallback_flag_monotone (fun _ => 0) (fun _ => "") (fun _ => 0)
    ⟨none, fun _ => none, none, none⟩ 0 [] "BTC" "1h" 0 0 0 ⟨true⟩ rfl⟩

/-- Decimal rounding is monotone. -/
lemma round4_mono {x y : ℚ} (h : x ≤ y) : round4 x ≤ round4 y := by
  unfold round4
  have hr : round (x * 10000) ≤ round (y * 10000) := by
    rw [round_eq, round_eq]
    exact Int.floor_mono (by linarith)
  have hc : ((round (x * 10000) : ℤ) : ℚ) ≤ ((round (y * 10000) : ℤ) : ℚ) :=
    Int.cast_le.mpr hr
  linarith

/-- Decimal rounding keeps nonnegative values nonnegative. -/
lemma round4_nonneg {x : ℚ} (h : 0 ≤ x) : 0 ≤ round4 x := by
  unfold round4
  have hr : (0 : ℤ) ≤ round (x * 10000) := by
    rw [round_eq]
    exact Int.floor_nonneg.mpr (by linarith)
  have : (0 : ℚ) ≤ ((round (x * 10000) : ℤ) : ℚ) := by exact_mod_cast hr
  linarith

/-- Integer rounding keeps nonnegative values nonnegative. -/
lemma round0_nonneg {x : ℚ} (h : 0 ≤ x) : 0 ≤ round0 x := by
  unfold round0
  have hr : (0 : ℤ) ≤ round x := by
    rw [round_eq]
    exact Int.floor_nonneg.mpr (by linarith)
  exact_mod_cast hr

/-- Every fallback-table base price is strictly positive. -/
lemma fallback_current_price_pos (symbol : String) (d : BinanceService.BinancePriceData)
    (h : BinanceService.FALLBACK_CRYPTO_DATA symbol = some d) : 0 < d.current_price := by
  unfold BinanceService.FALLBACK_CRYPTO_DATA at h
  split at h <;> first
    | (obtain rfl := Option.some.inj h; norm_num)
    | simp at h

/-- The base price used by `generateMockKlineData` is strictly
positive. -/
lemma mockKline_basePrice_pos (symbol : String) :
    0 < ((BinanceService.FALLBACK_CRYPTO_DATA symbol).map (·.current_price)).getD 100 := by
  cases h : BinanceService.FALLBACK_CRYPTO_DATA symbol with
  | none => norm_num
  | some d => simpa using fallback_current_price_pos symbol d h

/-- Invariants of the `generateMockCandles` loop: starting from a
positive running price, every emitted candle has nonnegative (rounded)
OHLC values and volume, `low ≤ min(open, close)` and
`high ≥ max(open, close)`. -/
lemma mockCandlesAux_invariants (rands : ℕ → ℚ)
    (hr : ∀ i, 0 ≤ rands i ∧ rands i < 1) (tfMs nowMs : ℕ) :
    ∀ (n k : ℕ) (price : ℚ), 0 < price →
      ∀ c ∈ MockKlines.generateMockCandlesAux rands tfMs nowMs n price k,
        0 ≤ c.«open» ∧ 0 ≤ c.high ∧ 0 ≤ c.low ∧ 0 ≤ c.close ∧ 0 ≤ c.volume ∧
        c.low ≤ min c.«open» c.close ∧ max c.«open» c.close ≤ c.high := by
  intro n
  induction n with
  | zero =>
    intro k price hp c hc
    simp [MockKlines.generateMockCandlesAux] at hc
  | succ m ih =>
    intro k price hp c hc
    simp only [MockKlines.generateMockCandlesAux, List.mem_cons] at hc
    have hv1 : (0 : ℚ) ≤ 0.02 + rands (5 * k) * 0.02 := by
      nlinarith [(hr (5 * k)).1]
    have hv2 : (0.02 + rands (5 * k) * 0.02 : ℚ) ≤ 0.04 := by
      nlinarith [(hr (5 * k)).2]
    have hm : (0.5 - rands (5 * k + 1)) * (0.02 + rands (5 * k) * 0.02) ≤ 0.5 * 0.04 :=
      mul_le_mul (by linarith [(hr (5 * k + 1)).1]) hv2 hv1 (by norm_num)
    have hclose : 0 < price + (rands (5 * k + 1) - 0.5) * (0.02 + rands (5 * k) * 0.02) * price := by
      nlinarith [hp, hm]
    set q := price + (rands (5 * k + 1) - 0.5) * (0.02 + rands (5 * k) * 0.02) * price with hq
    rcases hc with rfl | hc'
    · have hminpos : 0 < min price q := lt_min hp hclose
      have hmaxpos : 0 < max price q := lt_of_lt_of_le hp (le_max_left _ _)
      have hhigh : max price q ≤ max price q + rands (5 * k + 2) * 0.01 * max price q := by
        nlinarith [(hr (5 * k + 2)).1, hmaxpos]
      have hlow : min price q - rands (5 * k + 3) * 0.01 * min price q ≤ min price q := by
        nlinarith [(hr (5 * k + 3)).1, hminpos]
      have hlowpos : 0 ≤ min price q - rands (5 * k + 3) * 0.01 * min price q := by
        nlinarith [(hr (5 * k + 3)).2, hminpos]
      have hvol0 : (0 : ℚ) ≤ rands (5 * k + 4) * 1000000 + 500000 := by
        nlinarith [(hr (5 * k + 4)).1]
      exact ⟨round4_nonneg hp.le,
        round4_nonneg (le_trans hmaxpos.le hhigh),
        round4_nonneg hlowpos,
        round4_nonneg hclose.le,
        round0_nonneg hvol0,
        le_min (round4_mono (hlow.trans (min_le_left _ _)))
          (round4_mono (hlow.trans (min_le_right _ _))),
        max_le (round4_mono ((le_max_left _ _).trans hhigh))
          (round4_mono ((le_max_right _ _).trans hhigh))⟩
    · exact ih (k + 1) q hclose c hc'

set_option maxRecDepth 8000 in
/-- C7 amended: for every symbol, interval and count, and any random
stream in `[0, 1)`, every candle of both fallback generators satisfies
`low ≤ min(open, close)`, `high ≥ max(open, close)` and `volume ≥ 0`;
the REST-service generator's prices are strictly positive, while the
mock-kline generator's prices (4-decimal roundings of strictly positive
raw values) are nonnegative but can round to exactly 0 at extreme
counts (see the counterexample). -/
theorem C7_amended_candle_invariants (rands : ℕ → ℚ)
    (hr : ∀ i, 0 ≤ rands i ∧ rands i < 1) :
    (∀ (symbol interval : String) (limit now : ℕ),
       ∀ c ∈ BinanceService.generateMockKlineData rands symbol interval limit now,
         0 < c.«open» ∧ 0 < c.high ∧ 0 < c.low ∧ 0 < c.close ∧ 0 ≤ c.volume ∧
         c.low ≤ min c.«open» c.close ∧ max c.«open» c.close ≤ c.high) ∧
    (∀ (symbol timeframe : String) (count nowMs : ℕ),
       ∀ c ∈ MockKlines.generateMockCandles rands symbol timeframe count nowMs,
         0 ≤ c.«open» ∧ 0 ≤ c.high ∧ 0 ≤ c.low ∧ 0 ≤ c.close ∧ 0 ≤ c.volume ∧
         c.low ≤ min c.«open» c.close ∧ max c.«open» c.close ≤ c.high) := by
  constructor
  · intro symbol interval limit now c hc
    simp only [BinanceService.generateMockKlineData, List.mem_map, List.mem_range] at hc
    obtain ⟨k, hk, rfl⟩ := hc
    have hb := mockKline_basePrice_pos symbol
    set b := ((BinanceService.FALLBACK_CRYPTO_DATA symbol).map (·.current_price)).getD 100
      with hbdef
    have hopen : 0 < b * (1 + (rands (5 * k) - 0.5) * 0.02) := by
      nlinarith [hb, (hr (5 * k)).1, (hr (5 * k)).2]
    have hcl : 0 < b * (1 + (rands (5 * k) - 0.5) * 0.02) *
        (1 + (rands (5 * k + 1) - 0.5) * 0.02) := by
      nlinarith [hopen, (hr (5 * k + 1)).1, (hr (5 * k + 1)).2]
    set o := b * (1 + (rands (5 * k) - 0.5) * 0.02) with ho
    set cl := o * (1 + (rands (5 * k + 1) - 0.5) * 0.02) with hcldef
    have hminpos : 0 < min o cl := lt_min hopen hcl
    have hmaxpos : 0 < max o cl := lt_of_lt_of_le hopen (le_max_left _ _)
    have hhigh : max o cl ≤ max o cl * (1 + rands (5 * k + 2) * 0.01) := by
      nlinarith [(hr (5 * k + 2)).1, hmaxpos]
    have hlow : min o cl * (1 - rands (5 * k + 3) * 0.01) ≤ min o cl := by
      nlinarith [(hr (5 * k + 3)).1, hminpos]
    have hlowpos : 0 < min o cl * (1 - rands (5 * k + 3) * 0.01) := by
      nlinarith [(hr (5 * k + 3)).2, hminpos]
    exact ⟨hopen, lt_of_lt_of_le hmaxpos hhigh, hlowpos, hcl,
      by nlinarith [(hr (5 * k + 4)).1],
      le_min (hlow.trans (min_le_left _ _)) (hlow.trans (min_le_right _ _)),
      max_le ((le_max_left _ _).trans hhigh) ((le_max_right _ _).trans hhigh)⟩
  · intro symbol timeframe count nowMs c hc
    simp only [MockKlines.generateMockCandles] at hc
    have hb : (0 : ℚ) <
        (if symbol = "BTC" then (45000 : ℚ)
         else if symbol = "ETH" then 2800
         else if symbol = "XRP" then 0.6
         else 400) := by
      split_ifs <;> norm_num
    exact mockCandlesAux_invariants rands hr _ _ _ _ _ hb c hc

/-- Under the all-zero random stream the walk decays by exactly 1% per
candle: the closes are `round4 (price · (99/100)^(i+1))`. -/
lemma mockCandlesAux_zero_closes (tfMs nowMs : ℕ) :
    ∀ (n : ℕ) (price : ℚ) (k : ℕ),
      (MockKlines.generateMockCandlesAux (fun _ => 0) tfMs nowMs n price k).map
          (·.close) =
        (List.range n).map (fun i => round4 (price * (99 / 100) ^ (i + 1))) := by
  intro n
  induction n with
  | zero => intro price k; simp [MockKlines.generateMockCandlesAux]
  | succ m ih =>
    intro price k
    simp only [MockKlines.generateMockCandlesAux, List.map_cons, ih]
    rw [List.range_succ_eq_map]
    simp only [List.map_cons, List.map_map]
    have harg : price + (0 - (0.5 : ℚ)) * (0.02 + 0 * 0.02) * price =
        price * (99 / 100) := by ring
    rw [harg]
    congr 1
    · congr 1
      ring
    · congr 1
      funext i
      simp only [Function.comp]
      congr 1
      rw [Nat.succ_eq_add_one]
      ring

set_option maxRecDepth 8000 in
/-- C7 counterexample: the mock-kline generator does NOT always produce
strictly positive prices — for symbol `"XRP"` (base price 0.6),
timeframe `"1h"`, count 1000 and the admissible all-zero random stream,
the walk decays 1% per candle and the final candle's close,
`parseFloat((0.6·0.99^1001).toFixed(4))`, is exactly 0. -/
theorem C7_counterexample :
    ∃ c ∈ MockKlines.generateMockCandles (fun _ => 0) "XRP" "1h" 1000 0,
      c.close = 0 := by
  have hL : MockKlines.generateMockCandles (fun _ => 0) "XRP" "1h" 1000 0 =
      MockKlines.generateMockCandlesAux (fun _ => 0) 3600000 0 1001 (3 / 5) 0 := by
    norm_num [MockKlines.generateMockCandles]
    rw [if_neg (by decide : ¬("XRP" : String) = "BTC"),
      if_neg (by decide : ¬("XRP" : String) = "ETH")]
  have hmap := mockCandlesAux_zero_closes 3600000 0 1001 (3 / 5) 0
  have hmem : round4 ((3 / 5 : ℚ) * (99 / 100) ^ (1000 + 1)) ∈
      (List.range 1001).map (fun i => round4 ((3 / 5 : ℚ) * (99 / 100) ^ (i + 1))) :=
    List.mem_map.mpr ⟨1000, by simp, rfl⟩
  rw [← hmap] at hmem
  obtain ⟨c, hc, hceq⟩ := List.mem_map.mp hmem
  have hval : round4 ((3 / 5 : ℚ) * (99 / 100) ^ (1000 + 1)) = 0 := by
    unfold round4
    have hy : ((3 / 5 : ℚ) * (99 / 100) ^ (1000 + 1)) * 10000 =
        6000 * 99 ^ 1001 / 100 ^ 1001 := by
      rw [div_pow]
      ring
    rw [hy]
    have h0 : (0 : ℚ) < 100 ^ 1001 := by positivity
    have hnat : (12000 : ℕ) * 99 ^ 1001 < 100 ^ 1001 := by decide
    have h12 : (12000 : ℚ) * 99 ^ 1001 < 100 ^ 1001 := by exact_mod_cast hnat
    have hlt : (6000 : ℚ) * 99 ^ 1001 / 100 ^ 1001 < 1 / 2 := by
      rw [div_lt_iff₀ h0]
      linarith [h12]
    have hge : (0 : ℚ) ≤ 6000 * 99 ^ 1001 / 100 ^ 1001 := by positivity
    have hz : round ((6000 : ℚ) * 99 ^ 1001 / 100 ^ 1001) = 0 :=
      round_eq_zero_iff.mpr (Set.mem_Ico.mpr ⟨by linarith, hlt⟩)
    rw [hz]
    norm_num
  exact ⟨c, by rw [hL]; exact hc, hceq.trans hval⟩

/-- Witness for C7 amended: the constant-1/2 random stream satisfies
the `[0, 1)` hypothesis, and the invariants hold for both generators
under it. -/
theorem C7_amended_candle_invariants_witness :
    (∀ i : ℕ, 0 ≤ (fun _ : ℕ => (1 / 2 : ℚ)) i ∧ (fun _ : ℕ => (1 / 2 : ℚ)) i < 1) ∧
    ((∀ (symbol interval : String) (limit now : ℕ),
       ∀ c ∈ BinanceService.generateMockKlineData (fun _ : ℕ => (1 / 2 : ℚ))
           symbol interval limit now,
         0 < c.«open» ∧ 0 < c.high ∧ 0 < c.low ∧ 0 < c.close ∧ 0 ≤ c.volume ∧
         c.low ≤ min c.«open» c.close ∧ max c.«open» c.close ≤ c.high) ∧
     (∀ (symbol timeframe : String) (count nowMs : ℕ),
       ∀ c ∈ MockKlines.generateMockCandles (fun _ : ℕ => (1 / 2 : ℚ))
           symbol timeframe count nowMs,
         0 ≤ c.«open» ∧ 0 ≤ c.high ∧ 0 ≤ c.low ∧ 0 ≤ c.close ∧ 0 ≤ c.volume ∧
         c.low ≤ min c.«open» c.close ∧ max c.«open» c.close ≤ c.high)) := by
  have hhr : ∀ i : ℕ, 0 ≤ (fun _ : ℕ => (1 / 2 : ℚ)) i ∧ (fun _ : ℕ => (1 / 2 : ℚ)) i < 1 :=
    fun _ => ⟨by norm_num, by norm_num⟩
  exact ⟨hhr, C7_amended_candle_invariants _ hhr⟩
